import Mathlib

/-
Verification development for the RT-TICKET Discord ticket bot (src/bot.py).

The Python source is shallowly embedded: each handler becomes a pure Lean
function from its inputs (and the relevant mutable global state) to its
result and the updated state; the messages a handler sends become explicit
action values.  Timestamps are UTC seconds since the epoch (a `Nat`);
`datetime` formatting is abstracted as a function `Nat → String` passed to
the renderer.
-/

set_option autoImplicit false

/- ===================== string helpers (Python operators) ===================== -/

/-- `listStarts needle hay`: `needle` is an initial segment of `hay`. -/
def listStarts : List Char → List Char → Bool
  | [], _ => true
  | _ :: _, [] => false
  | a :: as, b :: bs => a == b && listStarts as bs

/-- Python `hay.startswith(needle)`. -/
def strStarts (needle hay : String) : Bool :=
  listStarts needle.data hay.data

/-- `needle` occurs as a contiguous run inside `hay` (at some position). -/
def listHasSub : List Char → List Char → Bool
  | [], needle => needle.isEmpty
  | c :: t, needle => listStarts needle (c :: t) || listHasSub t needle

/-- Python `needle in hay` on strings (substring containment). -/
def strContains (hay needle : String) : Bool :=
  listHasSub hay.data needle.data

/-- Helper for `pyTitle`: the flag records whether the previous character was
alphabetic (Python title-cases the first character of every alphabetic run). -/
def pyTitleAux : Bool → List Char → List Char
  | _, [] => []
  | prevCased, c :: cs =>
      let cased := c.isAlpha
      let c2 := if cased && !prevCased then c.toUpper else c.toLower
      c2 :: pyTitleAux cased cs

/-- Python `str.title()` restricted to ASCII, as used on the app keys. -/
def pyTitle (s : String) : String :=
  String.mk (pyTitleAux false s.data)

/-- Python `str.upper()` restricted to ASCII. -/
def pyUpper (s : String) : String :=
  String.mk (s.data.map Char.toUpper)

/-- Python `str.lower()` restricted to ASCII. -/
def pyLower (s : String) : String :=
  String.mk (s.data.map Char.toLower)

/- ===================== global configuration (bot.py lines 16-26) ============ -/

/-- `V2_APPS_LIST` from bot.py: the apps requiring two-step verification. -/
def V2_APPS_LIST : List String := ["bilibili", "hotstar", "vpn"]

/-- `COOLDOWN_HOURS` from bot.py. -/
def COOLDOWN_HOURS : Nat := 168

/-- `TICKET_START_HOUR_UTC` from bot.py. -/
def TICKET_START_HOUR_UTC : Nat := 14

/-- `TICKET_END_HOUR_UTC` from bot.py. -/
def TICKET_END_HOUR_UTC : Nat := 24

/-- The cooldown duration in seconds (`timedelta(hours=COOLDOWN_HOURS)`). -/
def COOLDOWN_SECS : Nat := COOLDOWN_HOURS * 3600

/- ===================== schedule gate (bot.py lines 146-160) ================= -/

/-- Python `datetime.weekday()` of a UTC epoch timestamp: Monday is 0.
The epoch day (1970-01-01) was a Thursday, weekday 3. -/
def weekdayOf (t : Nat) : Nat := (t / 86400 + 3) % 7

/-- Hour of day (UTC) of an epoch timestamp. -/
def hourOf (t : Nat) : Nat := t % 86400 / 3600

/-- `is_ticket_time_allowed` from bot.py: Saturday (weekday 5) and
`TICKET_START_HOUR_UTC <= hour < TICKET_END_HOUR_UTC`. -/
def is_ticket_time_allowed (t : Nat) : Bool :=
  if weekdayOf t != 5 then false
  else decide (TICKET_START_HOUR_UTC ≤ hourOf t) && decide (hourOf t < TICKET_END_HOUR_UTC)

/- ===================== transcript archiver (bot.py lines 185-208) =========== -/

/-- A channel message as consumed by `create_transcript` and
`perform_ticket_closure`: author display name and id, content, attachment
URLs, and the creation timestamp (epoch seconds). -/
structure Msg where
  created_at : Nat
  authorName : String
  authorId : Nat
  content : String
  attachments : List String
  deriving DecidableEq

/-- The rendered block of one message (bot.py lines 195-197): the
`[timestamp] author (id): content` line followed by one line per attachment
URL.  `fmt` abstracts the strftime timestamp formatting. -/
def renderMsg (fmt : Nat → String) (m : Msg) : String :=
  let base := "[" ++ fmt m.created_at ++ "] " ++ m.authorName ++ " (" ++
    toString m.authorId ++ "): " ++ m.content ++ "\n"
  m.attachments.foldl (fun l a => l ++ "📎 ATTACHMENT: " ++ a ++ "\n") base

/-- One iteration of the chunking loop of `create_transcript`
(bot.py lines 199-203): if appending the next rendered block would push the
buffer past 4000 characters, flush the buffer first; then append the block
plus an extra newline (the source appends `line + "\n"` where `line` already
ends in a newline). -/
def chunkStep (st : List String × String) (line : String) : List String × String :=
  if st.2.length + line.length > 4000 then
    (st.1 ++ [st.2], "" ++ line ++ "\n")
  else
    (st.1, st.2 ++ line ++ "\n")

/-- `create_transcript` from bot.py, applied to the oldest-first message list
(the source fetches newest-first and reverses before this loop).  Returns the
chunk list; the trailing buffer is flushed when nonempty. -/
def create_transcript (fmt : Nat → String) (msgs : List Msg) : List String :=
  let st := (msgs.map (renderMsg fmt)).foldl chunkStep ([], "")
  if st.2 = "" then st.1 else st.1 ++ [st.2]

/- ---- verification scaffolding for the chunking loop: a parallel fold that
keeps the buffer as the list of blocks it holds, so that chunk boundaries can
be related to block boundaries ---- -/

/-- Concatenation of a list of rendered blocks, each followed by the extra
newline that the source appends. -/
def segStr (seg : List String) : String :=
  seg.foldl (fun acc l => acc ++ l ++ "\n") ""

/-- The chunking step at the level of block lists: mirrors `chunkStep` with
the buffer kept as the list of blocks it contains. -/
def chunkStepSeg (st : List (List String) × List String) (line : String) :
    List (List String) × List String :=
  if (segStr st.2).length + line.length > 4000 then
    (st.1 ++ [st.2], [line])
  else
    (st.1, st.2 ++ [line])

theorem segStr_nil : segStr [] = "" := rfl

theorem segStr_single (l : String) : segStr [l] = "" ++ l ++ "\n" := rfl

theorem segStr_append_one (seg : List String) (l : String) :
    segStr (seg ++ [l]) = segStr seg ++ l ++ "\n" := by
  simp [segStr, List.foldl_append]

theorem chunk_sim (lines : List String) :
    ∀ (chs : List (List String)) (cur : List String),
      lines.foldl chunkStep (chs.map segStr, segStr cur) =
        ((lines.foldl chunkStepSeg (chs, cur)).1.map segStr,
          segStr (lines.foldl chunkStepSeg (chs, cur)).2) := by
  induction lines with
  | nil => intro chs cur; rfl
  | cons line rest ih =>
      intro chs cur
      by_cases h : (segStr cur).length + line.length > 4000
      · have e1 : chunkStep (chs.map segStr, segStr cur) line =
            ((chs ++ [cur]).map segStr, segStr [line]) := by
          simp [chunkStep, h, segStr_single, List.map_append]
        have e2 : chunkStepSeg (chs, cur) line = (chs ++ [cur], [line]) := by
          simp [chunkStepSeg, h]
        simp only [List.foldl_cons, e1, e2]
        exact ih (chs ++ [cur]) [line]
      · have e1 : chunkStep (chs.map segStr, segStr cur) line =
            (chs.map segStr, segStr (cur ++ [line])) := by
          simp [chunkStep, h, segStr_append_one]
        have e2 : chunkStepSeg (chs, cur) line = (chs, cur ++ [line]) := by
          simp [chunkStepSeg, h]
        simp only [List.foldl_cons, e1, e2]
        exact ih chs (cur ++ [line])

theorem chunkSeg_join (lines : List String) :
    ∀ (chs : List (List String)) (cur : List String),
      (lines.foldl chunkStepSeg (chs, cur)).1.flatten ++
          (lines.foldl chunkStepSeg (chs, cur)).2
        = chs.flatten ++ cur ++ lines := by
  induction lines with
  | nil => intro chs cur; simp
  | cons line rest ih =>
      intro chs cur
      rw [List.foldl_cons]
      by_cases h : (segStr cur).length + line.length > 4000
      · rw [show chunkStepSeg (chs, cur) line = (chs ++ [cur], [line]) from by
          simp [chunkStepSeg, h]]
        rw [ih (chs ++ [cur]) [line]]
        simp
      · rw [show chunkStepSeg (chs, cur) line = (chs, cur ++ [line]) from by
          simp [chunkStepSeg, h]]
        rw [ih chs (cur ++ [line])]
        simp

theorem chunkSeg_bound (lines : List String) :
    ∀ (chs : List (List String)) (cur : List String),
      (∀ l ∈ lines, l.length ≤ 4000) →
      (∀ c ∈ chs, (segStr c).length ≤ 4001) →
      (segStr cur).length ≤ 4001 →
      (∀ c ∈ (lines.foldl chunkStepSeg (chs, cur)).1, (segStr c).length ≤ 4001) ∧
        (segStr (lines.foldl chunkStepSeg (chs, cur)).2).length ≤ 4001 := by
  induction lines with
  | nil => intro chs cur _ hc hcur; exact ⟨hc, hcur⟩
  | cons line rest ih =>
      intro chs cur hl hc hcur
      have hline : line.length ≤ 4000 := hl line (by simp)
      have hrest : ∀ l ∈ rest, l.length ≤ 4000 := fun l hm => hl l (by simp [hm])
      rw [List.foldl_cons]
      by_cases h : (segStr cur).length + line.length > 4000
      · rw [show chunkStepSeg (chs, cur) line = (chs ++ [cur], [line]) from by
          simp [chunkStepSeg, h]]
        apply ih (chs ++ [cur]) [line] hrest
        · intro c hcmem
          rcases List.mem_append.mp hcmem with h1 | h2
          · exact hc c h1
          · rw [List.mem_singleton.mp h2]
            exact hcur
        · rw [segStr_single, String.length_append, String.length_append]
          have h0 : ("" : String).length = 0 := rfl
          have h1 : ("\n" : String).length = 1 := rfl
          omega
      · rw [show chunkStepSeg (chs, cur) line = (chs, cur ++ [line]) from by
          simp [chunkStepSeg, h]]
        apply ih chs (cur ++ [line]) hrest hc
        rw [segStr_append_one, String.length_append, String.length_append]
        have h1 : ("\n" : String).length = 1 := rfl
        omega

theorem segStr_foldl_le (t : List String) :
    ∀ acc : String,
      acc.length ≤ (List.foldl (fun a l => a ++ l ++ "\n") acc t).length := by
  induction t with
  | nil => intro acc; exact Nat.le_refl _
  | cons x xs ih =>
      intro acc
      refine Nat.le_trans ?_ (ih (acc ++ x ++ "\n"))
      rw [String.length_append, String.length_append]
      omega

theorem segStr_ne_empty (c : String) (t : List String) : segStr (c :: t) ≠ "" := by
  intro hcontra
  have hstep : segStr (c :: t) = List.foldl (fun a l => a ++ l ++ "\n") ("" ++ c ++ "\n") t := rfl
  have h1 : ("" ++ c ++ "\n").length ≤ (segStr (c :: t)).length := by
    rw [hstep]; exact segStr_foldl_le t _
  rw [hcontra] at h1
  rw [String.length_append, String.length_append] at h1
  have h0 : ("" : String).length = 0 := rfl
  have h2 : ("\n" : String).length = 1 := rfl
  omega

/-- The chunk list equals the block-level fold result, with buffer flushing
expressed at the block level. -/
theorem create_transcript_seg (fmt : Nat → String) (msgs : List Msg) :
    create_transcript fmt msgs =
      ((msgs.map (renderMsg fmt)).foldl chunkStepSeg ([], [])).1.map segStr ++
        (if ((msgs.map (renderMsg fmt)).foldl chunkStepSeg ([], [])).2 = [] then []
         else [segStr ((msgs.map (renderMsg fmt)).foldl chunkStepSeg ([], [])).2]) := by
  have hsim := chunk_sim (msgs.map (renderMsg fmt)) [] []
  unfold create_transcript
  rw [show (([] : List String), ("" : String)) =
      (([] : List (List String)).map segStr, segStr []) from rfl, hsim]
  rcases hcase : ((msgs.map (renderMsg fmt)).foldl chunkStepSeg ([], [])).2 with _ | ⟨c, t⟩
  · simp [segStr_nil]
  · simp [segStr_ne_empty c t]

/- ===================== C2: transcript chunking ============================== -/

/-- Timestamp formatter used in the concrete chunking inputs: a fixed
19-character strftime-shaped stamp, like the source's
`%Y-%m-%d %H:%M:%S` rendering. -/
def cexFmt : Nat → String := fun _ => "2024-01-01 00:00:00"

/-- A message whose rendered block is exactly 4000 characters long
(30 characters of fixed skeleton plus 3970 characters of content). -/
def cexMsg : Msg :=
  { created_at := 0, authorName := "A", authorId := 1,
    content := String.mk (List.replicate 3970 'a'), attachments := [] }

/-- Claim C2, counterexample.  The claim states that no chunk exceeds 4000
characters.  On a single message whose rendered block is exactly 4000
characters, `create_transcript` produces exactly one chunk of 4001
characters: the flush test `len(current) + len(line) > 4000` passes the
block through, but the code then appends `line + "\n"`, one character more
than it tested for. -/
theorem cex_block_length : (renderMsg cexFmt cexMsg).length = 4000 := by
  have h : renderMsg cexFmt cexMsg =
      "[" ++ cexFmt 0 ++ "] " ++ "A" ++ " (" ++ toString (1 : Nat) ++ "): " ++
        String.mk (List.replicate 3970 'a') ++ "\n" := rfl
  have l2 : (cexFmt 0).length = 19 := rfl
  have l8 : (String.mk (List.replicate 3970 'a')).length = 3970 := by
    show (List.replicate 3970 'a').length = 3970
    exact List.length_replicate 3970 'a'
  rw [h]
  simp only [String.length_append, l2, l8]
  rfl

theorem append_nl_ne_empty (s : String) : ("" ++ s ++ "\n") ≠ "" := by
  intro he
  have hz : ("" ++ s ++ "\n").length = 0 := by rw [he]; rfl
  rw [String.length_append, String.length_append] at hz
  have h1 : ("\n" : String).length = 1 := rfl
  omega

/-- `create_transcript` on a single message whose rendered block passes the
flush test: one chunk, the block plus the extra appended newline. -/
theorem create_transcript_single (fmt : Nat → String) (m : Msg)
    (h : ¬(("" : String).length + (renderMsg fmt m).length > 4000)) :
    create_transcript fmt [m] = ["" ++ renderMsg fmt m ++ "\n"] := by
  have hstep : chunkStep ([], "") (renderMsg fmt m) =
      ([], "" ++ renderMsg fmt m ++ "\n") := by
    unfold chunkStep
    rw [if_neg h]
  unfold create_transcript
  simp only [List.map_cons, List.map_nil, List.foldl_cons, List.foldl_nil, hstep]
  rw [if_neg (append_nl_ne_empty (renderMsg fmt m))]
  rfl

/-- Claim C2, counterexample.  The claim states that no chunk exceeds 4000
characters.  On a single message whose rendered block is exactly 4000
characters, `create_transcript` produces exactly one chunk of 4001
characters: the flush test `len(current) + len(line) > 4000` passes the
block through, but the code then appends `line + "\n"`, one character more
than it tested for. -/
theorem C2_chunk_counterexample :
    (create_transcript cexFmt [cexMsg]).map String.length = [4001] := by
  have h0 : ("" : String).length = 0 := rfl
  have hnl : ("\n" : String).length = 1 := rfl
  have hcond : ¬(("" : String).length + (renderMsg cexFmt cexMsg).length > 4000) := by
    rw [h0, cex_block_length]; omega
  rw [create_transcript_single cexFmt cexMsg hcond]
  rw [List.map_cons, List.map_nil, String.length_append, String.length_append,
    h0, hnl, cex_block_length]

/-- Claim C2 (amended): for every ordered message history, the chunk
sequence of `create_transcript` is obtained by splitting the list of
rendered message blocks (each block being the message line followed by its
attachment lines, plus the extra blank separator line the code appends) at
block boundaries, so every rendered line appears exactly once, in original
order, and no block — hence no single rendered line — is split across a
chunk boundary; and provided every rendered block is at most 4000
characters, every chunk is at most 4001 characters long (not 4000: the code
tests the 4000 bound before appending, then appends the block plus one
extra newline). -/
theorem C2_chunking_amended (fmt : Nat → String) (msgs : List Msg) :
    ∃ segs : List (List String),
      segs.flatten = msgs.map (renderMsg fmt) ∧
      create_transcript fmt msgs = segs.map segStr ∧
      ((∀ m ∈ msgs, (renderMsg fmt m).length ≤ 4000) →
        ∀ c ∈ create_transcript fmt msgs, c.length ≤ 4001) := by
  have hseg := create_transcript_seg fmt msgs
  have hj := chunkSeg_join (msgs.map (renderMsg fmt)) [] []
  have hbnd := chunkSeg_bound (msgs.map (renderMsg fmt)) [] []
  rcases hp : (msgs.map (renderMsg fmt)).foldl chunkStepSeg ([], []) with ⟨chs, cur⟩
  rw [hp] at hseg hj hbnd
  simp only [List.flatten_nil, List.nil_append] at hj
  refine ⟨chs ++ (if cur = [] then [] else [cur]), ?_, ?_, ?_⟩
  · rcases hcase : cur with _ | ⟨c, t⟩
    · rw [hcase] at hj
      rw [if_pos rfl, List.append_nil, ← hj, List.append_nil]
    · rw [hcase] at hj
      have hne : (c :: t) ≠ ([] : List String) := by simp
      rw [if_neg hne, ← hj]
      simp
  · rw [hseg]
    rcases hcase : cur with _ | ⟨c, t⟩
    · simp
    · have hne : (c :: t) ≠ ([] : List String) := by simp
      simp [hne]
  · intro hb chunk hcmem
    have hb2 : ∀ l ∈ msgs.map (renderMsg fmt), l.length ≤ 4000 := by
      intro l hl
      rcases List.mem_map.mp hl with ⟨m, hm, hrw⟩
      rw [← hrw]
      exact hb m hm
    have hbound := hbnd hb2 (by intro c hc; simp at hc) (by rw [segStr_nil]; decide)
    rw [hseg] at hcmem
    rcases List.mem_append.mp hcmem with h1 | h2
    · rcases List.mem_map.mp h1 with ⟨seg, hsegmem, hrw⟩
      rw [← hrw]
      exact hbound.1 seg hsegmem
    · rcases hcase : cur with _ | ⟨c, t⟩
      · rw [hcase] at h2; simp at h2
      · rw [hcase] at h2
        have hne : (c :: t) ≠ ([] : List String) := by simp
        rw [if_neg hne] at h2
        rw [List.mem_singleton.mp h2, ← hcase]
        exact hbound.2

/-- Concrete formatter for the C2 witness history. -/
def wFmt : Nat → String := fun _ => "2024-01-01 00:00:01"

/-- Concrete message for the C2 witness history. -/
def wMsg : Msg :=
  { created_at := 5, authorName := "bob", authorId := 42,
    content := "hello", attachments := ["http://x/y.png"] }

/-- Claim C2 witness: the amended chunking theorem applied to a concrete
one-message history with an attachment, with the block-size hypothesis
discharged by evaluation. -/
theorem C2_chunking_amended_witness :
    ∃ segs : List (List String),
      segs.flatten = [wMsg].map (renderMsg wFmt) ∧
      create_transcript wFmt [wMsg] = segs.map segStr ∧
      (∀ c ∈ create_transcript wFmt [wMsg], c.length ≤ 4001) := by
  obtain ⟨segs, h1, h2, h3⟩ := C2_chunking_amended wFmt [wMsg]
  exact ⟨segs, h1, h2, h3 (by decide)⟩

/- ===================== ticket opening (bot.py lines 258-314) ================ -/

/-- The `cooldowns` dictionary: requester id mapped to the `nextAllowedAt`
epoch timestamp.  Kept as an association list in insertion order. -/
abbrev Cooldowns := List (Nat × Nat)

/-- Python `cooldowns[uid]` lookup (`uid in cooldowns` is a `some` result). -/
def lookupCd : Cooldowns → Nat → Option Nat
  | [], _ => none
  | (k, v) :: rest, uid => if k == uid then some v else lookupCd rest uid

/-- Python `cooldowns[uid] = v`: overwrite the entry or append a new one. -/
def setCd : Cooldowns → Nat → Nat → Cooldowns
  | [], uid, v => [(uid, v)]
  | (k, w) :: rest, uid, v =>
      if k == uid then (uid, v) :: rest else (k, w) :: setCd rest uid v

/-- Python `del cooldowns[uid]` guarded by `uid in cooldowns`
(the `/remove_cooldown` command, bot.py lines 746-747). -/
def remove_cooldown (cds : Cooldowns) (uid : Nat) : Cooldowns :=
  cds.filter (fun p => !(p.1 == uid))

/-- The mutable global state read and written by `create_new_ticket`:
the `TICKET_CREATION_STATUS` flag, the `cooldowns` dictionary, and the
set of existing ticket channels (by name, creation order). -/
structure TicketState where
  creationEnabled : Bool
  cooldowns : Cooldowns
  channels : List String
  deriving DecidableEq

/-- Outcome of one `create_new_ticket` call. -/
inductive OpenResult
  | gateClosed
  | cooldownActive (remainingSecs : Nat)
  | creationFailed
  | created (channelName : String)
  deriving DecidableEq

/-- The tail of `create_new_ticket` after the gate and cooldown checks
(bot.py lines 300-314): the cooldown is reserved first, then the private
channel is created; if channel creation raises (modelled by
`channelCreateOk = false`, e.g. a permission error) the reservation
remains in place and no channel is recorded. -/
def reserveAndCreate (st : TicketState) (uid now : Nat) (channelCreateOk : Bool) :
    OpenResult × TicketState :=
  let cds := setCd st.cooldowns uid (now + COOLDOWN_SECS)
  let name := "ticket-" ++ toString uid
  if channelCreateOk then
    (.created name, { st with cooldowns := cds, channels := st.channels ++ [name] })
  else
    (.creationFailed, { st with cooldowns := cds })

/-- `create_new_ticket` from bot.py: first the global flag and the schedule
gate (lines 263-280), then the cooldown check (lines 286-298, rejection
reports the remaining wait and mutates nothing), then reservation and
channel creation.  There is no check for an already-open session. -/
def create_new_ticket (st : TicketState) (uid now : Nat) (channelCreateOk : Bool) :
    OpenResult × TicketState :=
  if !(st.creationEnabled && is_ticket_time_allowed now) then
    (.gateClosed, st)
  else
    match lookupCd st.cooldowns uid with
    | some next =>
        if next > now then (.cooldownActive (next - now), st)
        else reserveAndCreate st uid now channelCreateOk
    | none => reserveAndCreate st uid now channelCreateOk

theorem lookupCd_setCd (cds : Cooldowns) (uid v : Nat) :
    lookupCd (setCd cds uid v) uid = some v := by
  induction cds with
  | nil => simp [setCd, lookupCd]
  | cons p rest ih =>
      rcases p with ⟨k, w⟩
      by_cases hk : k == uid
      · simp [setCd, hk, lookupCd]
      · simp [setCd, hk, lookupCd, ih]

/-- Case dissection of `create_new_ticket`: the gate is evaluated first,
the cooldown second, and otherwise control reaches the reservation step. -/
theorem create_new_ticket_cases (st : TicketState) (uid now : Nat) (ok : Bool) :
    ((st.creationEnabled && is_ticket_time_allowed now) = false ∧
      create_new_ticket st uid now ok = (.gateClosed, st)) ∨
    ((st.creationEnabled && is_ticket_time_allowed now) = true ∧
      ∃ next, lookupCd st.cooldowns uid = some next ∧ now < next ∧
        create_new_ticket st uid now ok = (.cooldownActive (next - now), st)) ∨
    ((st.creationEnabled && is_ticket_time_allowed now) = true ∧
      (∀ next, lookupCd st.cooldowns uid = some next → next ≤ now) ∧
      create_new_ticket st uid now ok = reserveAndCreate st uid now ok) := by
  by_cases hg : (st.creationEnabled && is_ticket_time_allowed now) = true
  · rcases hl : lookupCd st.cooldowns uid with _ | next
    · refine Or.inr (Or.inr ⟨hg, ?_, ?_⟩)
      · intro next hnext; cases hnext
      · unfold create_new_ticket
        simp [hg, hl]
    · by_cases hlt : now < next
      · refine Or.inr (Or.inl ⟨hg, next, rfl, hlt, ?_⟩)
        unfold create_new_ticket
        simp [hg, hl, hlt]
      · refine Or.inr (Or.inr ⟨hg, ?_, ?_⟩)
        · intro n hn
          injection hn with he
          omega
        · unfold create_new_ticket
          simp [hg, hl, hlt]
  · have hg2 : (st.creationEnabled && is_ticket_time_allowed now) = false := by
      revert hg; cases st.creationEnabled && is_ticket_time_allowed now <;> simp
    refine Or.inl ⟨hg2, ?_⟩
    unfold create_new_ticket
    simp [hg2]

/-- What a successful creation did to the state. -/
theorem create_new_ticket_success (st : TicketState) (uid now : Nat)
    (st2 : TicketState) (ch : String)
    (h : create_new_ticket st uid now true = (.created ch, st2)) :
    st.creationEnabled = true ∧ is_ticket_time_allowed now = true ∧
    ch = "ticket-" ++ toString uid ∧
    st2 = { st with cooldowns := setCd st.cooldowns uid (now + COOLDOWN_SECS),
                    channels := st.channels ++ ["ticket-" ++ toString uid] } := by
  rcases create_new_ticket_cases st uid now true with
    ⟨_, he⟩ | ⟨_, next, _, _, he⟩ | ⟨hg, _, he⟩
  · rw [he] at h; simp at h
  · rw [he] at h; simp at h
  · rw [he] at h
    unfold reserveAndCreate at h
    simp only [Bool.and_eq_true] at hg
    rcases hg with ⟨hce, hta⟩
    simp only [if_pos rfl, Prod.mk.injEq, OpenResult.created.injEq] at h
    rcases h with ⟨rfl, rfl⟩
    exact ⟨hce, hta, rfl, rfl⟩

/-- Claim C3: an open attempt that finds a cooldown entry with
`nextAllowedAt > now` is rejected reporting exactly the remaining duration
`nextAllowedAt - now` and mutates nothing; rejected attempts (gate-closed or
cooldown-active) never write the entry; a successful open writes
`nextAllowedAt = now + COOLDOWN_SECS`; consequently an open succeeding at t1
forces an open at any gate-open t2 with t1 < t2 < t1 + cooldown to be
rejected with remaining exactly t1 + cooldown − t2. -/
theorem C3_cooldown_reservation (st : TicketState) (uid now : Nat) :
    (∀ next, lookupCd st.cooldowns uid = some next → now < next →
      (st.creationEnabled && is_ticket_time_allowed now) = true →
      create_new_ticket st uid now true = (.cooldownActive (next - now), st)) ∧
    (∀ ok r st2, create_new_ticket st uid now ok = (r, st2) →
      (r = .gateClosed ∨ ∃ rem, r = .cooldownActive rem) → st2 = st) ∧
    (∀ st2 ch, create_new_ticket st uid now true = (.created ch, st2) →
      lookupCd st2.cooldowns uid = some (now + COOLDOWN_SECS)) ∧
    (∀ t1 t2 st1 ch, create_new_ticket st uid t1 true = (.created ch, st1) →
      t1 < t2 → t2 < t1 + COOLDOWN_SECS → is_ticket_time_allowed t2 = true →
      create_new_ticket st1 uid t2 true =
        (.cooldownActive (t1 + COOLDOWN_SECS - t2), st1)) := by
  refine ⟨?_, ?_, ?_, ?_⟩
  · intro next hl hlt hg
    unfold create_new_ticket
    simp [hg, hl, hlt]
  · intro ok r st2 h hre
    rcases create_new_ticket_cases st uid now ok with
      ⟨_, he⟩ | ⟨_, next, _, _, he⟩ | ⟨_, _, he⟩
    · rw [he] at h
      injection h with hr hs
      exact hs.symm
    · rw [he] at h
      injection h with hr hs
      exact hs.symm
    · rw [he] at h
      unfold reserveAndCreate at h
      rcases hre with hre | ⟨rem, hre⟩ <;> subst hre <;> cases ok <;> simp at h
  · intro st2 ch h
    rcases create_new_ticket_success st uid now st2 ch h with ⟨_, _, _, hst⟩
    rw [hst]
    exact lookupCd_setCd st.cooldowns uid (now + COOLDOWN_SECS)
  · intro t1 t2 st1 ch h h12 h2D hta2
    rcases create_new_ticket_success st uid t1 st1 ch h with ⟨hce, hta1, hch, hst⟩
    subst hst
    have hl2 : lookupCd (setCd st.cooldowns uid (t1 + COOLDOWN_SECS)) uid
        = some (t1 + COOLDOWN_SECS) := lookupCd_setCd _ _ _
    unfold create_new_ticket
    simp [hce, hta2, hl2, h2D]

/-- Initial state for the concrete scenarios: creation enabled, no
cooldown entries, no channels. -/
def st0 : TicketState := { creationEnabled := true, cooldowns := [], channels := [] }

/-- The state after a successful open by requester 7 at t1 = 223200
(Saturday 1970-01-03, 14:00 UTC): nextAllowedAt = t1 + 604800 = 828000. -/
def st1c : TicketState :=
  { creationEnabled := true, cooldowns := [(7, 828000)], channels := ["ticket-7"] }

/-- Claim C3 witness: requester 7 opens successfully at Saturday 14:00 UTC
(t1 = 223200); at t2 = 226800 (15:00 UTC the same Saturday) the open is
rejected with exactly 828000 − 226800 = 601200 seconds remaining. -/
theorem C3_cooldown_reservation_witness :
    create_new_ticket st1c 7 226800 true = (.cooldownActive 601200, st1c) :=
  (C3_cooldown_reservation st0 7 223200).2.2.2 223200 226800 st1c "ticket-7"
    (by decide) (by decide) (by decide) (by decide)

/-- Claim C4 (amended): an open request is rejected for exactly one of TWO
reasons, evaluated in this order: schedule-gate-closed, then
cooldown-active (with the remaining duration).  `create_new_ticket` performs
no already-has-open-session check: with the gate open and no blocking
cooldown entry, creation proceeds regardless of the existing channels, so
after an administrative cooldown clear a requester can hold a second
non-closed session. -/
theorem C4_rejection_reasons_amended (st : TicketState) (uid now : Nat) (ok : Bool) :
    ((st.creationEnabled && is_ticket_time_allowed now) = false →
      create_new_ticket st uid now ok = (.gateClosed, st)) ∧
    (∀ next, (st.creationEnabled && is_ticket_time_allowed now) = true →
      lookupCd st.cooldowns uid = some next → now < next →
      create_new_ticket st uid now ok = (.cooldownActive (next - now), st)) ∧
    ((st.creationEnabled && is_ticket_time_allowed now) = true →
      (∀ next, lookupCd st.cooldowns uid = some next → next ≤ now) →
      (create_new_ticket st uid now true).1 = .created ("ticket-" ++ toString uid) ∧
      (create_new_ticket st uid now true).2.channels
        = st.channels ++ ["ticket-" ++ toString uid]) ∧
    (∀ r st2, create_new_ticket st uid now ok = (r, st2) →
      r = .gateClosed ∨ (∃ rem, r = .cooldownActive rem) ∨
        r = .creationFailed ∨ r = .created ("ticket-" ++ toString uid)) := by
  refine ⟨?_, ?_, ?_, ?_⟩
  · intro h
    unfold create_new_ticket
    simp [h]
  · intro next hg hl hlt
    unfold create_new_ticket
    simp [hg, hl, hlt]
  · intro hg hcd
    rcases create_new_ticket_cases st uid now true with
      ⟨hg2, _⟩ | ⟨_, next, hl, hlt, _⟩ | ⟨_, _, he⟩
    · rw [hg] at hg2; cases hg2
    · have := hcd next hl; omega
    · rw [he]
      unfold reserveAndCreate
      simp
  · intro r st2 h
    rcases create_new_ticket_cases st uid now ok with
      ⟨_, he⟩ | ⟨_, next, _, _, he⟩ | ⟨_, _, he⟩
    · rw [he] at h
      injection h with hr hs
      exact Or.inl hr.symm
    · rw [he] at h
      injection h with hr hs
      exact Or.inr (Or.inl ⟨next - now, hr.symm⟩)
    · rw [he] at h
      unfold reserveAndCreate at h
      cases ok
      · simp only [Bool.false_eq_true, if_false] at h
        injection h with hr hs
        exact Or.inr (Or.inr (Or.inl hr.symm))
      · simp only [if_true] at h
        injection h with hr hs
        exact Or.inr (Or.inr (Or.inr hr.symm))

/-- Claim C4, counterexample.  The claim asserts a third rejection reason,
already-has-open-session, making a second concurrent session impossible.
Concrete reachable trace refuting it: requester 7 opens successfully at
Saturday 14:00 UTC (channel `ticket-7` recorded); an admin clears the
cooldown with `/remove_cooldown`; a second open at 15:00 UTC the same
Saturday succeeds again and the state records two `ticket-7` sessions. -/
theorem C4_rejection_reasons_counterexample :
    (create_new_ticket st0 7 223200 true).1 = .created "ticket-7" ∧
    (create_new_ticket
        { (create_new_ticket st0 7 223200 true).2 with
          cooldowns := remove_cooldown (create_new_ticket st0 7 223200 true).2.cooldowns 7 }
        7 226800 true).1 = .created "ticket-7" ∧
    (create_new_ticket
        { (create_new_ticket st0 7 223200 true).2 with
          cooldowns := remove_cooldown (create_new_ticket st0 7 223200 true).2.cooldowns 7 }
        7 226800 true).2.channels = ["ticket-7", "ticket-7"] := by decide

/-- Claim C4 witness: the gate is checked first — at a non-Saturday instant
(t = 0, a Thursday) the open by requester 7 is rejected as gate-closed with
no state change. -/
theorem C4_rejection_reasons_amended_witness :
    create_new_ticket st0 7 0 true = (.gateClosed, st0) :=
  (C4_rejection_reasons_amended st0 7 0 true).1 (by decide)

/-- Claim C9: ticket opening is not atomic with channel allocation — once
the gate and cooldown checks pass, the cooldown reservation
`now + COOLDOWN_SECS` is written first, so when channel creation then fails
(a raised permission error, `channelCreateOk = false`) the requester holds
the full reservation while no session or channel exists. -/
theorem C9_reservation_not_atomic (st : TicketState) (uid now : Nat)
    (hg : (st.creationEnabled && is_ticket_time_allowed now) = true)
    (hcd : ∀ next, lookupCd st.cooldowns uid = some next → next ≤ now) :
    create_new_ticket st uid now false =
      (.creationFailed,
        { st with cooldowns := setCd st.cooldowns uid (now + COOLDOWN_SECS) }) ∧
    lookupCd (create_new_ticket st uid now false).2.cooldowns uid
      = some (now + COOLDOWN_SECS) ∧
    (create_new_ticket st uid now false).2.channels = st.channels := by
  rcases create_new_ticket_cases st uid now false with
    ⟨hg2, _⟩ | ⟨_, next, hl, hlt, _⟩ | ⟨_, _, he⟩
  · rw [hg] at hg2; cases hg2
  · have := hcd next hl; omega
  · have he2 : create_new_ticket st uid now false =
        (.creationFailed,
          { st with cooldowns := setCd st.cooldowns uid (now + COOLDOWN_SECS) }) := by
      rw [he]
      unfold reserveAndCreate
      simp
    refine ⟨he2, ?_, ?_⟩
    · rw [he2]
      exact lookupCd_setCd _ _ _
    · rw [he2]

/-- Claim C9 witness: requester 7 at Saturday 14:00 UTC with a failing
channel creation: the call fails but the full one-week reservation is
recorded and no channel exists. -/
theorem C9_reservation_not_atomic_witness :
    create_new_ticket st0 7 223200 false =
      (.creationFailed, { st0 with cooldowns := [(7, 828000)] }) := by
  have h := C9_reservation_not_atomic st0 7 223200 (by decide)
    (by intro next hn
        rw [show lookupCd st0.cooldowns 7 = none from rfl] at hn
        cases hn)
  exact h.1

/- ============== verification protocol (bot.py lines 540-650) =============== -/

/-- Modelled from the spec: `deliver_and_close` is invoked by
`VerificationView.verify` (bot.py line 590) and `verify_v2_final`
(bot.py line 648) but is not defined anywhere in the source file.  Per the
spec (section 4.4), it delivers the snapshotted link: it sends the link to
the ticket channel, attempts a direct notification to the requester, on
direct-notification failure falls back to a channel-only notice without
failing the overall operation, and offers closure.  `dmOk` is whether the
direct notification succeeds. -/
structure DeliveryOutcome where
  channelGotLink : Bool
  dmDelivered : Bool
  fallbackNotice : Bool
  closureOffered : Bool
  succeeded : Bool
  deriving DecidableEq

/-- Modelled from the spec: see `DeliveryOutcome`. -/
def deliver_and_close (dmOk : Bool) : DeliveryOutcome :=
  { channelGotLink := true
    dmDelivered := dmOk
    fallbackNotice := !dmOk
    closureOffered := true
    succeeded := true }

/-- Outcome of pressing the Verify button (`VerificationView.verify`). -/
inductive VerifyOutcome
  | noPermission
  | v2ConfigMissing
  | v2Prompt
  | delivered (d : DeliveryOutcome)
  deriving DecidableEq

/-- `VerificationView.verify` (bot.py lines 549-596): admins only; for an
app in `V2_APPS_LIST` it surfaces the secondary verification URL and waits
for the phase-2 proof (or reports a configuration error when the URL is
missing); for a one-step app it calls `deliver_and_close`. -/
def VerificationView_verify (isAdmin : Bool) (appKey : String)
    (v2ls : List (String × String)) (dmOk : Bool) : VerifyOutcome :=
  if !isAdmin then .noPermission
  else if V2_APPS_LIST.contains appKey then
    match (v2ls.find? (fun p => p.1 == appKey)).map Prod.snd with
    | none => .v2ConfigMissing
    | some _ => .v2Prompt
  else .delivered (deliver_and_close dmOk)

/-- Observable per-ticket verification state kept across events: whether the
final link was delivered, whether a phase-1 approval happened for a
two-step app, and whether the requester's ticket channel exists. -/
structure BotState where
  delivered : Bool
  v1ApprovedTwoStep : Bool
  channelExists : Bool
  deriving DecidableEq

/-- The verification-related events the code reacts to. -/
inductive Event
  | verifyClick (isAdmin twoStep v2LinkOk : Bool)
  | declineClick (isAdmin : Bool)
  | v2FinalCmd (isAdmin inV2List linkOk : Bool)
  deriving DecidableEq

/-- One event step, following the source handlers:
`VerificationView.verify` (lines 549-596) delivers immediately for a
one-step app and only surfaces the phase-2 prompt for a two-step app;
`VerificationView.decline` (lines 599-617) notifies and changes nothing;
`verify_v2_final` (lines 623-650) checks only admin permission, membership
in `V2_APPS_LIST`, a configured final link, and an existing `ticket-` channel
— it never checks that phase 1 was approved. -/
def step (s : BotState) (e : Event) : BotState :=
  match e with
  | .verifyClick isAdmin twoStep v2LinkOk =>
      if !isAdmin then s
      else if twoStep then
        if v2LinkOk then { s with v1ApprovedTwoStep := true } else s
      else { s with delivered := true }
  | .declineClick _ => s
  | .v2FinalCmd isAdmin inV2 linkOk =>
      if isAdmin && inV2 && linkOk && s.channelExists then
        { s with delivered := true }
      else s

/-- Folding a trace of events. -/
def run (s : BotState) (evs : List Event) : BotState :=
  evs.foldl step s

/-- Whether an event is one of the two delivery paths of the code: a
phase-1 approval of a one-step app, or an admissible `verify_v2_final`. -/
def deliversEvent : Event → Bool
  | .verifyClick isAdmin twoStep _ => isAdmin && !twoStep
  | .declineClick _ => false
  | .v2FinalCmd isAdmin inV2 linkOk => isAdmin && inV2 && linkOk

theorem step_delivered (s : BotState) (e : Event)
    (h : (step s e).delivered = true) :
    s.delivered = true ∨ deliversEvent e = true := by
  rcases e with ⟨a, ts, lk⟩ | a | ⟨a, v, l⟩
  · rcases a with _ | _ <;> rcases ts with _ | _ <;> rcases lk with _ | _ <;>
      simp [step, deliversEvent] at h ⊢ <;> exact h
  · exact Or.inl h
  · by_cases hc : (a && v && l && s.channelExists) = true
    · simp only [step, if_pos hc] at h
      simp only [Bool.and_eq_true] at hc
      simp [deliversEvent, hc.1.1.1, hc.1.1.2, hc.1.2]
    · have hc2 : (a && v && l && s.channelExists) = false := by
        revert hc; cases a && v && l && s.channelExists <;> simp
      simp only [step, hc2, if_false] at h
      exact Or.inl h

/-- Claim C5, counterexample.  The claim states that for a two-step resource
DELIVERED is reachable only through an approved phase-1 followed by an
approved phase-2.  Concretely: starting from a fresh session with its ticket
channel (no phase-1 approval ever happened), the single admin command
`verify_v2_final` — whose trace contains no Verify-button event at all —
already delivers the final link. -/
theorem C5_two_step_counterexample :
    (run ⟨false, false, true⟩ [Event.v2FinalCmd true true true]).delivered = true ∧
    (run ⟨false, false, true⟩ [Event.v2FinalCmd true true true]).v1ApprovedTwoStep = false ∧
    (∀ e ∈ [Event.v2FinalCmd true true true],
      ∀ a ts lk, e ≠ Event.verifyClick a ts lk) := by
  refine ⟨rfl, rfl, ?_⟩
  intro e he a ts lk
  rw [List.mem_singleton.mp he]
  intro hcontra
  cases hcontra

/-- Claim C5 (amended): declining never changes the state (in particular it
never transitions to DELIVERED); a phase-1 approval of a two-step resource
never delivers (it only records the approval and awaits phase 2); but
`verify_v2_final` delivers whenever the admin, two-step-list, link and
channel guards hold, with no requirement of a prior approved phase-1
attempt; and along any trace, delivery only ever arises from a one-step
phase-1 approval or from a `verify_v2_final` whose guards hold. -/
theorem C5_two_step_amended (s : BotState) (evs : List Event) :
    (∀ a, step s (.declineClick a) = s) ∧
    (∀ a lk, (step s (.verifyClick a true lk)).delivered = s.delivered) ∧
    (s.channelExists = true → s.v1ApprovedTwoStep = false →
      (step s (.v2FinalCmd true true true)).delivered = true) ∧
    ((run s evs).delivered = true →
      s.delivered = true ∨ ∃ e ∈ evs, deliversEvent e = true) := by
  refine ⟨?_, ?_, ?_, ?_⟩
  · intro a; rfl
  · intro a lk
    rcases a with _ | _ <;> rcases lk with _ | _ <;> simp [step]
  · intro hch _
    simp [step, hch]
  · induction evs generalizing s with
    | nil => intro h; exact Or.inl h
    | cons e rest ih =>
        intro h
        rcases ih (step s e) h with h1 | ⟨e2, he2, hd⟩
        · rcases step_delivered s e h1 with h2 | h2
          · exact Or.inl h2
          · exact Or.inr ⟨e, by simp, h2⟩
        · exact Or.inr ⟨e2, by simp [he2], hd⟩

/-- Claim C5 witness: the amended theorem applied to a fresh undelivered
session and the one-event trace of a one-step phase-1 approval; the trace
indeed contains a delivering event. -/
theorem C5_two_step_amended_witness :
    (⟨false, false, true⟩ : BotState).delivered = true ∨
      ∃ e ∈ [Event.verifyClick true false true], deliversEvent e = true :=
  (C5_two_step_amended ⟨false, false, true⟩ [Event.verifyClick true false true]).2.2.2
    (by decide)

/-- Claim C1: an admin approving the phase-1 attempt of a one-step resource
(an app key not in `V2_APPS_LIST`) triggers `deliver_and_close`: the session
reaches the delivered state, the link is sent to the ticket channel, closure
is offered, and the operation succeeds both when the direct notification to
the requester works (`dmDelivered`) and when it fails (channel-only
`fallbackNotice`). -/
theorem C1_one_step_delivery (appKey : String) (v2ls : List (String × String))
    (dmOk : Bool) (s : BotState)
    (hone : V2_APPS_LIST.contains appKey = false) :
    VerificationView_verify true appKey v2ls dmOk = .delivered (deliver_and_close dmOk) ∧
    (deliver_and_close dmOk).succeeded = true ∧
    (deliver_and_close dmOk).channelGotLink = true ∧
    (deliver_and_close dmOk).closureOffered = true ∧
    (deliver_and_close dmOk).dmDelivered = dmOk ∧
    (deliver_and_close dmOk).fallbackNotice = !dmOk ∧
    (step s (.verifyClick true false true)).delivered = true := by
    refine ⟨?_, rfl, rfl, rfl, rfl, rfl, rfl⟩
    unfold VerificationView_verify
    rw [hone]
    simp

/-- Claim C1 witness: the one-step app `spotify` with a failing direct
notification: the outcome is still a successful delivery with the
channel-only fallback notice, and the session state is delivered. -/
theorem C1_one_step_delivery_witness :
    VerificationView_verify true "spotify" [] false
        = .delivered (deliver_and_close false) ∧
    (deliver_and_close false).succeeded = true ∧
    (deliver_and_close false).channelGotLink = true ∧
    (deliver_and_close false).closureOffered = true ∧
    (deliver_and_close false).dmDelivered = false ∧
    (deliver_and_close false).fallbackNotice = !false ∧
    (step ⟨false, false, true⟩ (.verifyClick true false true)).delivered = true :=
  C1_one_step_delivery "spotify" [] false ⟨false, false, true⟩ (by decide)

/- ============== ticket closure (bot.py lines 213-253) ====================== -/

/-- The metadata embed computed by `perform_ticket_closure`
(bot.py lines 220-239). -/
structure ClosureMeta where
  opener : Nat
  closer : Nat
  openTime : Nat
  closeTime : Nat
  duration : Nat
  deriving DecidableEq

/-- The observable effects of `perform_ticket_closure`, in program order. -/
inductive LogEvent
  | sendMetadata (md : ClosureMeta)
  | sendChunk (part : String)
  | deleteChannel
  deriving DecidableEq

/-- The metadata computation (bot.py lines 220-225): with a nonempty
history, opener and open time come from the first (oldest) message; with an
empty history the code falls back to the CLOSER and to the current time
(so the duration is zero). -/
def closureMeta (messages : List Msg) (closer now : Nat) : ClosureMeta :=
  { opener := match messages with | [] => closer | m :: _ => m.authorId
    closer := closer
    openTime := match messages with | [] => now | m :: _ => m.created_at
    closeTime := now
    duration := now - (match messages with | [] => now | m :: _ => m.created_at) }

/-- `perform_ticket_closure` from bot.py: build the transcript, compute the
metadata, send the metadata embed, send each chunk embed in order, and only
then delete the channel.  `logOk = false` models a raised send failure (for
example an unreachable log destination): the exception propagates, so no
event — in particular no deletion — happens.  `messages` is the channel
history oldest-first; `closer` is whoever invoked the closure. -/
def perform_ticket_closure (fmt : Nat → String) (messages : List Msg)
    (closer now : Nat) (logOk : Bool) : Except String (List LogEvent) :=
  let parts := create_transcript fmt messages
  let md := closureMeta messages closer now
  if logOk then
    .ok (LogEvent.sendMetadata md :: (parts.map LogEvent.sendChunk ++ [LogEvent.deleteChannel]))
  else
    .error "transcript log destination unreachable"

/-- Projection of a chunk-send event. -/
def chunkPayload : LogEvent → Option String
  | .sendChunk s => some s
  | _ => none

/-- Recognizer of the channel-deletion event. -/
def isDeleteEvent : LogEvent → Bool
  | .deleteChannel => true
  | _ => false

theorem filterMap_chunkPayload_map (parts : List String) :
    (parts.map LogEvent.sendChunk).filterMap chunkPayload = parts := by
  induction parts with
  | nil => rfl
  | cons p ps ih => simp [List.filterMap_cons, chunkPayload, ih]

theorem filter_delete_map (parts : List String) :
    (parts.map LogEvent.sendChunk).filter isDeleteEvent = [] := by
  induction parts with
  | nil => rfl
  | cons p ps ih => simp [List.filter_cons, isDeleteEvent, ih]

/-- Claim C6, counterexample.  The claim states that for an empty channel
the metadata opener is the session's recorded opener and the open time is
the session's creation time.  Concretely: the channel `ticket-7` (opened by
requester 7, session created at t = 1000) is closed empty by admin 99 at
t = 5000; the code records opener 99 (the closer, not requester 7) and open
time 5000 (the close time, not 1000), hence duration 0. -/
theorem C6_closure_counterexample :
    (closureMeta [] 99 5000).opener = 99 ∧
    ¬((closureMeta [] 99 5000).opener = 7) ∧
    (closureMeta [] 99 5000).openTime = 5000 ∧
    ¬((closureMeta [] 99 5000).openTime = 1000) ∧
    (closureMeta [] 99 5000).duration = 0 := by decide

/-- Claim C6 (amended): at closure the metadata embed is emitted first, then
the chunks in chronological order, and the channel deletion is the last
event, occurring exactly once — in particular every emission precedes the
deletion; an archival failure surfaces as an error with no events at all, so
the channel is then not deleted and the transcript is not silently lost.
The metadata satisfies close time = now and duration = close − open; for a
nonempty channel, opener = author of the first message and open time = the
first message's timestamp; but for an EMPTY channel the code falls back to
the closer and to the close time (duration 0), not to the session's recorded
opener and creation time. -/
theorem C6_closure_order_amended (fmt : Nat → String) (messages : List Msg)
    (closer now : Nat) :
    (∃ evs, perform_ticket_closure fmt messages closer now true = .ok evs ∧
      evs.head? = some (.sendMetadata (closureMeta messages closer now)) ∧
      evs.getLast? = some .deleteChannel ∧
      (evs.filter isDeleteEvent).length = 1 ∧
      evs.filterMap chunkPayload = create_transcript fmt messages) ∧
    (∃ err, perform_ticket_closure fmt messages closer now false = .error err) ∧
    (∀ evs, perform_ticket_closure fmt messages closer now false ≠ .ok evs) ∧
    (closureMeta messages closer now).closeTime = now ∧
    (closureMeta messages closer now).duration
      = now - (closureMeta messages closer now).openTime ∧
    (∀ m ms, messages = m :: ms →
      (closureMeta messages closer now).opener = m.authorId ∧
      (closureMeta messages closer now).openTime = m.created_at) ∧
    (messages = [] →
      (closureMeta messages closer now).opener = closer ∧
      (closureMeta messages closer now).openTime = now) := by
  refine ⟨?_, ⟨"transcript log destination unreachable", rfl⟩, ?_, rfl, rfl, ?_, ?_⟩
  · refine ⟨LogEvent.sendMetadata (closureMeta messages closer now) ::
      ((create_transcript fmt messages).map LogEvent.sendChunk ++ [LogEvent.deleteChannel]),
      rfl, rfl, ?_, ?_, ?_⟩
    · rw [show (LogEvent.sendMetadata (closureMeta messages closer now) ::
          ((create_transcript fmt messages).map LogEvent.sendChunk ++ [LogEvent.deleteChannel]))
          = (LogEvent.sendMetadata (closureMeta messages closer now) ::
            (create_transcript fmt messages).map LogEvent.sendChunk) ++ [LogEvent.deleteChannel]
          from by simp]
      exact List.getLast?_concat _
    · rw [List.filter_cons, List.filter_append, filter_delete_map]
      simp [isDeleteEvent]
    · rw [List.filterMap_cons, List.filterMap_append, filterMap_chunkPayload_map]
      simp [chunkPayload]
  · intro evs hcontra
    unfold perform_ticket_closure at hcontra
    simp at hcontra
  · intro m ms hm
    rw [hm]
    exact ⟨rfl, rfl⟩
  · intro hm
    rw [hm]
    exact ⟨rfl, rfl⟩

/-- Claim C6 witness: closing a channel holding one concrete message from
requester 3 at t = 1200, closed by admin 99 at t = 5000: the metadata
records opener 3 and open time 1200 as claimed for nonempty histories. -/
theorem C6_closure_order_amended_witness :
    (closureMeta [wMsg] 99 5000).opener = 42 ∧
    (closureMeta [wMsg] 99 5000).openTime = 5 :=
  (C6_closure_order_amended wFmt [wMsg] 99 5000).2.2.2.2.2.1 wMsg [] rfl

/- ============== on_message handler (bot.py lines 894-999) ================== -/

/-- The default app catalog written by `load_apps` when `apps.json` is
missing (bot.py lines 63-71), in insertion order. -/
def default_apps : List (String × String) :=
  [("spotify", "https://link-target.net/1438550/4r4pWdwOV2gK"),
   ("youtube", "https://example.com/youtube-download"),
   ("kinemaster", "https://link-center.net/1438550/dP4XtgqcsuU1"),
   ("hotstar", "https://final-link.com/hotstar-premium"),
   ("vpn", "https://final-link.com/vpn-premium"),
   ("truecaller", "https://link-target.net/1438550/kvu1lPW7ZsKu"),
   ("bilibili", "https://final-link.com/bilibili-premium")]

/-- An inbound Discord message as seen by `on_message`. -/
structure InMsg where
  fromBot : Bool
  channelName : String
  content : String
  attachments : List String
  deriving DecidableEq

/-- A Python runtime error raised inside a handler. -/
inductive PyErr
  | unboundLocal (name : String)
  deriving DecidableEq

/-- The messages `on_message` sends, in order. -/
inductive MsgAction
  | adminPanelV2 (appKey screenshot : String)
  | ackV2ToUser
  | adminPanelV1 (appKey screenshot : String)
  | ackV1ToUser
  | keywordMissingNotice (appKey : String)
  deriving DecidableEq

/-- `on_message` from bot.py: bot authors and non-ticket channels are
ignored; the attributed app is the FIRST catalog key (in catalog iteration
order) occurring as a case-insensitive substring of the content (Python
`next((key for key in apps if key in content_lower), None)`); with an
attachment, the `"<NAME> KEY"` check runs first for two-step apps, then the
`RASH TECH` check, else the keyword-missing notice; with a matched app but
NO attachment, the code builds the notice text from `app_name_display` — a
local assigned only inside the attachment branch — so on that path the
reference raises UnboundLocalError before anything is sent; with no matched
key, nothing is sent at all.  (A matched empty-string key is falsy in
Python, so both branches are skipped.) -/
def on_message (apps : List (String × String)) (msg : InMsg) :
    Except PyErr (List MsgAction) :=
  if msg.fromBot || !(strStarts "ticket-" msg.channelName) then .ok []
  else
    let content_upper := pyUpper msg.content
    let content_lower := pyLower msg.content
    let matched_app_key :=
      (apps.map Prod.fst).find? (fun key => strContains content_lower key)
    let has_attachment := !msg.attachments.isEmpty
    match matched_app_key with
    | some app_key =>
        if (app_key != "") && has_attachment then
          let app_name_display := pyTitle app_key
          let screenshot := msg.attachments.headD ""
          let is_v2_app := V2_APPS_LIST.contains app_key
          let v2_key_word := pyUpper app_name_display ++ " KEY"
          if is_v2_app && strContains content_upper v2_key_word then
            .ok [.adminPanelV2 app_key screenshot, .ackV2ToUser]
          else if strContains content_upper "RASH TECH" then
            .ok [.adminPanelV1 app_key screenshot, .ackV1ToUser]
          else
            .ok [.keywordMissingNotice app_key]
        else if (app_key != "") && !has_attachment then
          .error (.unboundLocal "app_name_display")
        else .ok []
    | none => .ok []

deriving instance DecidableEq for Except

/-- The concrete failing input for claim C7: a ticket-channel message that
names the app but carries no attachment. -/
def c7FailMsg : InMsg :=
  { fromBot := false, channelName := "ticket-7",
    content := "please send spotify", attachments := [] }

/-- Claim C7 (code behavior at the failing input): the claim says a proof
submission lacking the required attachment or keyword is rejected with a
user-visible notice.  The keyword-lacking case does get the notice (second
conjunct), but the attachment-lacking case crashes instead: the notice text
reads `app_name_display`, which is assigned only in the attachment branch,
so the handler raises UnboundLocalError and the user gets no notice at all
(first conjunct). -/
theorem C7_missing_attachment_crash :
    on_message default_apps c7FailMsg = .error (.unboundLocal "app_name_display") ∧
    on_message default_apps
        { c7FailMsg with content := "spotify proof", attachments := ["https://img"] }
      = .ok [.keywordMissingNotice "spotify"] := by decide

/-- Claim C10: the resource a submission is attributed to is computed per
message as the first catalog key, in catalog iteration order, occurring as a
case-insensitive substring of the content — the handler reads no session
state, so the attribution is independent of any previously selected
resource; and a ticket-channel message carrying an attachment but matching
no catalog key is silently ignored (no action at all, no notice). -/
theorem C10_attribution (apps : List (String × String)) (msg : InMsg)
    (hbot : msg.fromBot = false) (hch : strStarts "ticket-" msg.channelName = true) :
    ((apps.map Prod.fst).find? (fun key => strContains (pyLower msg.content) key) = none →
      on_message apps msg = .ok []) ∧
    (∀ k, (apps.map Prod.fst).find? (fun key => strContains (pyLower msg.content) key)
        = some k →
      k ≠ "" → msg.attachments ≠ [] →
      ∃ acts, on_message apps msg = .ok acts ∧ acts ≠ [] ∧
        (∀ k2 ss, (MsgAction.adminPanelV1 k2 ss ∈ acts ∨
            MsgAction.adminPanelV2 k2 ss ∈ acts ∨
            MsgAction.keywordMissingNotice k2 ∈ acts) → k2 = k)) := by
  constructor
  · intro hnone
    unfold on_message
    simp [hbot, hch, hnone]
  · intro k hk hke hatt
    have hkb : (k != "") = true := bne_iff_ne.mpr hke
    have hab : msg.attachments.isEmpty = false := by
      rcases hal : msg.attachments with _ | ⟨a, as⟩
      · exact absurd hal hatt
      · rfl
    by_cases hv2 : k ∈ V2_APPS_LIST
    · by_cases hkey : strContains (pyUpper msg.content) (pyUpper (pyTitle k) ++ " KEY") = true
      · refine ⟨[.adminPanelV2 k (msg.attachments.headD ""), .ackV2ToUser], ?_, by simp, ?_⟩
        · unfold on_message
          simp [hbot, hch, hk, hkb, hab, hv2, hkey]
        · intro k2 ss hmem
          rcases hmem with hm | hm | hm <;> simp at hm
          · exact hm.1
      · by_cases h2 : strContains (pyUpper msg.content) "RASH TECH" = true
        · refine ⟨[.adminPanelV1 k (msg.attachments.headD ""), .ackV1ToUser], ?_, by simp, ?_⟩
          · unfold on_message
            simp [hbot, hch, hk, hkb, hab, hv2, hkey, h2]
          · intro k2 ss hmem
            rcases hmem with hm | hm | hm <;> simp at hm
            · exact hm.1
        · refine ⟨[.keywordMissingNotice k], ?_, by simp, ?_⟩
          · unfold on_message
            simp [hbot, hch, hk, hkb, hab, hv2, hkey, h2]
          · intro k2 ss hmem
            rcases hmem with hm | hm | hm <;> simp at hm
            · exact hm
    · by_cases h2 : strContains (pyUpper msg.content) "RASH TECH" = true
      · refine ⟨[.adminPanelV1 k (msg.attachments.headD ""), .ackV1ToUser], ?_, by simp, ?_⟩
        · unfold on_message
          simp [hbot, hch, hk, hkb, hab, hv2, h2]
        · intro k2 ss hmem
          rcases hmem with hm | hm | hm <;> simp at hm
          · exact hm.1
      · refine ⟨[.keywordMissingNotice k], ?_, by simp, ?_⟩
        · unfold on_message
          simp [hbot, hch, hk, hkb, hab, hv2, h2]
        · intro k2 ss hmem
          rcases hmem with hm | hm | hm <;> simp at hm
          · exact hm

/-- Concrete catalog for the C10 witness: iteration order has `vpn` first. -/
def appsW : List (String × String) := [("vpn", "l1"), ("hotstar", "l2")]

/-- Concrete inbound message for the C10 witness. -/
def msgW : InMsg :=
  { fromBot := false, channelName := "ticket-9",
    content := "need hotstar please", attachments := ["https://shot.png"] }

/-- Claim C10 witness: the attribution theorem applied at a concrete catalog
and message (the first matching key in iteration order is `hotstar`), with
all hypotheses discharged by evaluation. -/
theorem C10_attribution_witness :
    ∃ acts, on_message appsW msgW = .ok acts ∧ acts ≠ [] ∧
      (∀ k2 ss, (MsgAction.adminPanelV1 k2 ss ∈ acts ∨
          MsgAction.adminPanelV2 k2 ss ∈ acts ∨
          MsgAction.keywordMissingNotice k2 ∈ acts) → k2 = "hotstar") :=
  (C10_attribution appsW msgW rfl (by decide)).2 "hotstar" (by decide) (by decide)
    (by decide)

/- ============== panel registrar (bot.py lines 1005-1045) =================== -/

/-- A message in the panel channel as inspected by `setup_ticket_panel`:
whether the bot authored it, and the custom id of the first component
control, when any components exist. -/
structure PanelMsg where
  fromBot : Bool
  firstControlId : Option String
  deriving DecidableEq

/-- The stable identifier of the persistent ticket panel control
(bot.py line 495 and line 1028). -/
def panelId : String := "persistent_create_ticket_button"

/-- The scan test of bot.py lines 1027-1028: authored by the bot, has
components, and the first control carries the stable identifier. -/
def isPanelMsg (m : PanelMsg) : Bool :=
  m.fromBot && m.firstControlId == some panelId

/-- A freshly sent panel message (bot.py line 1039). -/
def newPanelMsg : PanelMsg :=
  { fromBot := true, firstControlId := some panelId }

/-- Index of the first panel message in a scanned history. -/
def findPanelIdx : List PanelMsg → Option Nat
  | [] => none
  | m :: rest => if isPanelMsg m then some 0 else (findPanelIdx rest).map (· + 1)

/-- Removal of the message at an index (the `panel_message.delete()` call). -/
def eraseAt : List PanelMsg → Nat → List PanelMsg
  | [], _ => []
  | _ :: rest, 0 => rest
  | m :: rest, n + 1 => m :: eraseAt rest n

/-- `setup_ticket_panel` from bot.py: scan the 5 most recent messages of the
panel channel (`channel.history(limit=5)`, newest first) for the control
with the stable identifier; found and not forced — no-op; found and forced —
delete it, then send a new panel; not found — send a new panel.  The channel
is the newest-first message list; sending prepends. -/
def setup_ticket_panel (hist : List PanelMsg) (force_resend : Bool) : List PanelMsg :=
  match findPanelIdx (hist.take 5) with
  | some i => if force_resend then newPanelMsg :: eraseAt hist i else hist
  | none => newPanelMsg :: hist

/-- Number of panel messages present in the channel. -/
def panelCount (hist : List PanelMsg) : Nat :=
  (hist.filter isPanelMsg).length

theorem findPanelIdx_get : ∀ (l : List PanelMsg) (i : Nat),
    findPanelIdx l = some i → ∃ m, l.get? i = some m ∧ isPanelMsg m = true := by
  intro l
  induction l with
  | nil => intro i h; cases h
  | cons m rest ih =>
      intro i h
      unfold findPanelIdx at h
      by_cases hm : isPanelMsg m
      · rw [if_pos hm] at h
        injection h with hi
        rw [← hi]
        exact ⟨m, rfl, hm⟩
      · rw [if_neg hm] at h
        rcases hop : findPanelIdx rest with _ | j
        · rw [hop] at h; cases h
        · rw [hop] at h
          injection h with hi
          rcases ih j hop with ⟨m2, hg, hp⟩
          refine ⟨m2, ?_, hp⟩
          rw [← hi]
          exact hg

theorem get_take : ∀ (l : List PanelMsg) (k i : Nat) (m : PanelMsg),
    (l.take k).get? i = some m → l.get? i = some m := by
  intro l
  induction l with
  | nil => intro k i m h; simp at h
  | cons x rest ih =>
      intro k i m h
      rcases k with _ | k2
      · simp at h
      · rcases i with _ | i2
        · simpa using h
        · simp only [List.take, List.get?] at h ⊢
          exact ih k2 i2 m h

theorem panelCount_eraseAt : ∀ (l : List PanelMsg) (i : Nat) (m : PanelMsg),
    l.get? i = some m → isPanelMsg m = true →
    panelCount (eraseAt l i) + 1 = panelCount l := by
  intro l
  induction l with
  | nil => intro i m h; cases i <;> cases h
  | cons x rest ih =>
      intro i m h hp
      rcases i with _ | i2
      · have hx : x = m := by simpa using h
        subst hx
        unfold eraseAt panelCount
        rw [List.filter_cons, hp]
        simp [panelCount]
      · simp only [List.get?] at h
        unfold eraseAt panelCount
        rw [List.filter_cons, List.filter_cons]
        have hrec := ih i2 m h hp
        unfold panelCount at hrec
        by_cases hx : isPanelMsg x = true
        · rw [if_pos hx, if_pos hx]
          simp only [List.length_cons]
          omega
        · rw [if_neg hx, if_neg hx]
          omega

theorem findPanelIdx_none (l : List PanelMsg)
    (h : ∀ m ∈ l, isPanelMsg m = false) : findPanelIdx l = none := by
  induction l with
  | nil => rfl
  | cons x rest ih =>
      unfold findPanelIdx
      rw [h x (by simp)]
      simp only [Bool.false_eq_true, if_false]
      rw [ih (fun m hm => h m (by simp [hm]))]
      rfl

theorem findPanelIdx_new_cons (hist : List PanelMsg) :
    findPanelIdx ((newPanelMsg :: hist).take 5) = some 0 := by
  rw [List.take_succ_cons]
  unfold findPanelIdx
  rw [if_pos (by decide : isPanelMsg newPanelMsg = true)]

theorem panelCount_new_cons (hist : List PanelMsg) :
    panelCount (newPanelMsg :: hist) = panelCount hist + 1 := by
  unfold panelCount
  rw [List.filter_cons, if_pos (by decide : isPanelMsg newPanelMsg = true)]
  rfl

/-- Claim C8: `setup_ticket_panel` scans the 5 most recent messages of the
panel channel for the stable control id; a found panel with
`force_resend = false` makes the call a no-op; an absent panel makes the
call create exactly one new panel; a found panel with `force_resend = true`
is deleted and exactly one new panel is created; hence two successive calls
with `force_resend = false` are idempotent, and from a panel-free channel
they leave exactly one panel — no duplicates accumulate across restarts. -/
theorem C8_panel_idempotent (hist : List PanelMsg) (i : Nat) :
    (findPanelIdx (hist.take 5) = some i →
      setup_ticket_panel hist false = hist) ∧
    (findPanelIdx (hist.take 5) = none → ∀ force,
      setup_ticket_panel hist force = newPanelMsg :: hist ∧
      panelCount (setup_ticket_panel hist force) = panelCount hist + 1) ∧
    (findPanelIdx (hist.take 5) = some i →
      setup_ticket_panel hist true = newPanelMsg :: eraseAt hist i ∧
      panelCount (setup_ticket_panel hist true) = panelCount hist) ∧
    (setup_ticket_panel (setup_ticket_panel hist false) false
      = setup_ticket_panel hist false) ∧
    (panelCount hist = 0 →
      panelCount (setup_ticket_panel (setup_ticket_panel hist false) false) = 1) := by
  refine ⟨?_, ?_, ?_, ?_, ?_⟩
  · intro h
    unfold setup_ticket_panel
    rw [h]
    simp
  · intro h force
    unfold setup_ticket_panel
    rw [h]
    exact ⟨rfl, panelCount_new_cons hist⟩
  · intro h
    have hshape : setup_ticket_panel hist true = newPanelMsg :: eraseAt hist i := by
      unfold setup_ticket_panel
      rw [h]
      simp
    refine ⟨hshape, ?_⟩
    rw [hshape, panelCount_new_cons]
    rcases findPanelIdx_get (hist.take 5) i h with ⟨m, hg, hp⟩
    exact panelCount_eraseAt hist i m (get_take hist 5 i m hg) hp
  · rcases hf : findPanelIdx (hist.take 5) with _ | j
    · have h1 : setup_ticket_panel hist false = newPanelMsg :: hist := by
        unfold setup_ticket_panel
        rw [hf]
      rw [h1]
      unfold setup_ticket_panel
      rw [findPanelIdx_new_cons]
      simp
    · have h1 : setup_ticket_panel hist false = hist := by
        unfold setup_ticket_panel
        rw [hf]
        simp
      rw [h1, h1]
  · intro h0
    have hall : ∀ m ∈ hist, isPanelMsg m = false := by
      intro m hm
      have hfe : hist.filter isPanelMsg = [] :=
        List.length_eq_zero.mp h0
      have := List.filter_eq_nil_iff.mp hfe m hm
      revert this
      cases isPanelMsg m <;> simp
    have hnone : findPanelIdx (hist.take 5) = none :=
      findPanelIdx_none (hist.take 5) (fun m hm => hall m (List.take_subset 5 hist hm))
    have h1 : setup_ticket_panel hist false = newPanelMsg :: hist := by
      unfold setup_ticket_panel
      rw [hnone]
    have h2 : setup_ticket_panel (newPanelMsg :: hist) false = newPanelMsg :: hist := by
      unfold setup_ticket_panel
      rw [findPanelIdx_new_cons]
      simp
    rw [h1, h2, panelCount_new_cons, h0]

/-- Claim C8 witness: starting from an empty panel channel, two successive
calls with `force_resend = false` leave exactly one panel. -/
theorem C8_panel_idempotent_witness :
    panelCount (setup_ticket_panel (setup_ticket_panel [] false) false) = 1 :=
  (C8_panel_idempotent [] 0).2.2.2.2 rfl
